import Mathlib

set_option maxHeartbeats 1000000

/- Shallow embedding of the auto-archiver repository core:
   - src/storages/gd_storage.py (class GDStorage): hierarchical path
     resolution over the Google Drive list/create API, with a per-instance
     cache and a bounded retry loop;
   - src/archivers/tiktok_archiver.py (TiktokArchiver.download) and
     src/archivers/youtubedl_archiver.py (YoutubeDLArchiver.download).
   External collaborators (the remote Drive API, media extractors, hasher,
   thumbnailer, screenshotter, filesystem) are modelled as oracles: each
   remote/collaborator call site reads the next response from an
   environment, and every exceptional outcome a collaborator can produce is
   a value of the corresponding Except type. -/

/-- Python str applied to a bool, as interpolated into the cache key
f-string in GDStorage._get_id_from_parent_and_name. -/
def pyBool : Bool → String
  | true => "True"
  | false => "False"

/-- Python str applied to an optional id: None prints as "None" (this is
what the f-string query building does when parent_id is None). -/
def pyStr : Option String → String
  | none => "None"
  | some v => v

/-- os.path.join(folder, key) for the shapes occurring here (posix
separator, no trailing separators, relative key). -/
def joinPath (folder key : String) : String :=
  if folder = "" then key else folder ++ "/" ++ key

/-- Python str.split on a single separator character, written by structural
recursion on the character list so that it evaluates inside the kernel. -/
def splitCharsAux (sep : Char) : List Char → List Char → List String
  | [], acc => [String.mk acc.reverse]
  | c :: rest, acc =>
    if c = sep then String.mk acc.reverse :: splitCharsAux sep rest []
    else splitCharsAux sep rest (c :: acc)

/-- Python s.split(sep) for a one-character separator. -/
def splitOnChar (s : String) (sep : Char) : List String :=
  splitCharsAux sep s.data []

/-- full_name.split(os.path.sep), i.e. the path_parts list of
GDStorage.get_cdn_url and GDStorage.uploadf. -/
def pathParts (folder key : String) : List String :=
  splitOnChar (joinPath folder key) '/'

/-- Whether the character list hay starts with the character list pat. -/
def charsStartWith : List Char → List Char → Bool
  | _, [] => true
  | [], _ :: _ => false
  | c :: cs, p :: ps => c = p && charsStartWith cs ps

/-- Whether pat occurs somewhere inside hay. -/
def charsContain : List Char → List Char → Bool
  | [], pat => pat.isEmpty
  | c :: rest, pat => charsStartWith (c :: rest) pat || charsContain rest pat

/-- Python substring containment (the "in" operator on strings). -/
def strContains (s pat : String) : Bool :=
  charsContain s.data pat.data

/-- A single-quote character, used to build the Drive query strings. -/
def sQuote : String := String.mk [Char.ofNat 39]

/-- One entry of the files().list response (fields files(id, name)). -/
structure GDEntry where
  id : String
  name : String
deriving DecidableEq, Repr

/-- A record of one remote files().create call: the model stamps each
created file/folder with a fresh uid (the remote service assigns a unique
id), and keeps the name and parent it was created with. -/
structure GDCreated where
  uid : Nat
  name : String
  parent : String
  isFolder : Bool
deriving DecidableEq, Repr

/-- The String id the remote returns for a freshly created file/folder. -/
def gdIdOf (uid : Nat) : String := "gdid_" ++ Nat.repr uid

/-- The observable state of one GDStorage instance plus its remote side
effects: the api_cache dict (assoc list, newest first), the number of
files().list calls issued, the time.sleep calls performed (each recorded
with its duration), the files().create calls performed, and the fresh-id
counter of the remote. -/
structure GDState where
  cache : List (String × String)
  listCalls : Nat
  sleeps : List Nat
  created : List GDCreated
  nextId : Nat
deriving DecidableEq, Repr

/-- The empty starting state: fresh instance, no remote traffic yet. -/
def GDState.init : GDState := ⟨[], 0, [], [], 0⟩

/-- Python dict lookup on the assoc-list model of api_cache (entries are
prepended, so the head shadows older bindings, like dict assignment). -/
def lookupCache : List (String × String) → String → Option String
  | [], _ => none
  | (k, v) :: rest, ck => if k = ck then some v else lookupCache rest ck

/-- The cache key f-string of _get_id_from_parent_and_name. -/
def cacheKey (parentId name : String) (useMimeType : Bool) : String :=
  parentId ++ "_" ++ name ++ "_" ++ pyBool useMimeType

/-- The query_string built by _get_id_from_parent_and_name. -/
def queryString (parentId name : String) (useMimeType : Bool) : String :=
  sQuote ++ parentId ++ sQuote ++ " in parents and name = " ++ sQuote ++ name ++ sQuote ++ " "
    ++ (if useMimeType then
          " and mimeType=" ++ sQuote ++ "application/vnd.google-apps.folder" ++ sQuote ++ " "
        else "")

/-- Responses of the remote files().list(...).execute() API: given the
index of the call (how many list calls were issued before) and the query
string, either a transport/auth exception (an arbitrary code) or the list
of matching entries. Quantifying theorems over this oracle quantifies over
every outcome of the remote collaborator. -/
def ListOracle : Type := Nat → String → Except Nat (List GDEntry)

/-- Outcome of _get_id_from_parent_and_name: a returned id, a returned
None (raise_on_missing=False), a raised ValueError (not found), or a
raised transport exception propagating out of the list call. -/
inductive GetIdOut
  | found (id : String)
  | nothing
  | raisedNF
  | raisedT (c : Nat)
deriving DecidableEq, Repr

/-- The retry loop of _get_id_from_parent_and_name (for attempt in
range(retries)): issues the list query; on a transport error the exception
propagates; on one or more matches returns items[-1].id and caches it when
use_cache; on zero matches sleeps sleep_seconds and retries unless this
was the last attempt. The Nat argument is the number of attempts left. -/
def getIdLoop (oracle : ListOracle) (qs ck : String) (sleepSeconds : Nat)
    (useCache : Bool) : Nat → GDState → Except Nat (Option String) × GDState
  | 0, s => (Except.ok none, s)
  | k + 1, s =>
    match oracle s.listCalls qs with
    | Except.error c => (Except.error c, { s with listCalls := s.listCalls + 1 })
    | Except.ok items =>
      let s1 : GDState := { s with listCalls := s.listCalls + 1 }
      match items with
      | [] =>
        if k = 0 then (Except.ok none, s1)
        else getIdLoop oracle qs ck sleepSeconds useCache k
               { s1 with sleeps := s1.sleeps ++ [sleepSeconds] }
      | e :: es =>
        let i := ((e :: es).getLast (List.cons_ne_nil e es)).id
        (Except.ok (some i),
         if useCache then { s1 with cache := (ck, i) :: s1.cache } else s1)

/-- GDStorage._get_id_from_parent_and_name: cache probe first (when
use_cache), then the bounded retry loop, then raise ValueError or return
None depending on raise_on_missing. -/
def get_id_from_parent_and_name (oracle : ListOracle) (parentId name : String)
    (retries sleepSeconds : Nat) (useMimeType raiseOnMissing useCache : Bool)
    (s : GDState) : GetIdOut × GDState :=
  let ck := cacheKey parentId name useMimeType
  match (if useCache then lookupCache s.cache ck else none) with
  | some v => (GetIdOut.found v, s)
  | none =>
    let qs := queryString parentId name useMimeType
    match getIdLoop oracle qs ck sleepSeconds useCache retries s with
    | (Except.error c, s1) => (GetIdOut.raisedT c, s1)
    | (Except.ok (some v), s1) => (GetIdOut.found v, s1)
    | (Except.ok none, s1) =>
      if raiseOnMissing then (GetIdOut.raisedNF, s1) else (GetIdOut.nothing, s1)

/-- Exceptions that can escape a GDStorage method. -/
inductive GDErr
  | notFound
  | transport (c : Nat)
deriving DecidableEq, Repr

/-- Decidable equality of Except outcomes, used to evaluate the model on
concrete inputs. -/
instance instDecEqExcept {e a : Type} [DecidableEq e] [DecidableEq a] :
    DecidableEq (Except e a) := fun x y =>
  match x, y with
  | Except.error e1, Except.error e2 =>
    if h : e1 = e2 then Decidable.isTrue (by rw [h])
    else Decidable.isFalse (by intro hc; injection hc; contradiction)
  | Except.ok v1, Except.ok v2 =>
    if h : v1 = v2 then Decidable.isTrue (by rw [h])
    else Decidable.isFalse (by intro hc; injection hc; contradiction)
  | Except.error _, Except.ok _ => Decidable.isFalse (by intro hc; injection hc)
  | Except.ok _, Except.error _ => Decidable.isFalse (by intro hc; injection hc)

/-- The folder loop of GDStorage.get_cdn_url: for each folder of
path_parts, folder_id = _get_id_from_parent_and_name(parent_id, folder,
use_mime_type=True, raise_on_missing=True) with default retries=1,
sleep_seconds=10, use_cache=True; then parent_id = folder_id. A raised
exception propagates. Returns the final folder_id (None when the list of
folders is empty, exactly as in the source). -/
def readFolderLoop (oracle : ListOracle) :
    List String → String → Option String → GDState →
    Except GDErr (Option String) × GDState
  | [], _p, fid, s => (Except.ok fid, s)
  | f :: rest, p, _fid, s =>
    match get_id_from_parent_and_name oracle p f 1 10 true true true s with
    | (GetIdOut.found v, s1) => readFolderLoop oracle rest v (some v) s1
    | (GetIdOut.raisedT c, s1) => (Except.error (GDErr.transport c), s1)
    | (GetIdOut.raisedNF, s1) => (Except.error GDErr.notFound, s1)
    | (GetIdOut.nothing, s1) => (Except.error GDErr.notFound, s1)

/-- The sharing URL built from a resolved file id. -/
def gdViewUrl (fileId : String) : String :=
  "https://drive.google.com/file/d/" ++ fileId ++ "/view?usp=sharing"

/-- GDStorage.get_cdn_url: split folder/key into path parts, resolve every
folder part with mime filter and raise_on_missing=True, then resolve the
filename (last part) under folder_id with the default arguments
(retries=1, no mime filter, raise_on_missing=True, use_cache=True) and
return the sharing URL. An Except.error result is a raised exception. -/
def get_cdn_url (oracle : ListOracle) (folder rootFolderId key : String)
    (s : GDState) : Except GDErr String × GDState :=
  let parts := pathParts folder key
  let filename := parts.getLastD ""
  match readFolderLoop oracle parts.dropLast rootFolderId none s with
  | (Except.error e, s1) => (Except.error e, s1)
  | (Except.ok folderId, s1) =>
    match get_id_from_parent_and_name oracle (pyStr folderId) filename
        1 10 false true true s1 with
    | (GetIdOut.found fid, s2) => (Except.ok (gdViewUrl fid), s2)
    | (GetIdOut.raisedT c, s2) => (Except.error (GDErr.transport c), s2)
    | (GetIdOut.raisedNF, s2) => (Except.error GDErr.notFound, s2)
    | (GetIdOut.nothing, s2) => (Except.error GDErr.notFound, s2)

/-- GDStorage.exists: calls get_cdn_url inside try, returns True on
success; the bare except converts every exception into False. -/
def gdExists (oracle : ListOracle) (folder rootFolderId key : String)
    (s : GDState) : Bool × GDState :=
  match get_cdn_url oracle folder rootFolderId key s with
  | (Except.ok _, s1) => (true, s1)
  | (Except.error _, s1) => (false, s1)

/-- GDStorage._mkdir: issues files().create for a folder with the given
name under parent_id and returns the new folder id. The model stamps the
creation with the fresh uid of the remote. -/
def mkdir (name parentId : String) (s : GDState) : String × GDState :=
  (gdIdOf s.nextId,
   { s with created := s.created ++ [⟨s.nextId, name, parentId, true⟩],
            nextId := s.nextId + 1 })

/-- The folder loop of GDStorage.uploadf: for each folder of path_parts,
upload_to = _get_id_from_parent_and_name(parent_id, folder,
use_mime_type=True, raise_on_missing=False) with default retries=1; if
that returned None, upload_to = _mkdir(folder, parent_id); then
parent_id = upload_to. Returns the final upload_to. -/
def writeFolderLoop (oracle : ListOracle) :
    List String → String → Option String → GDState →
    Except GDErr (Option String) × GDState
  | [], _p, upTo, s => (Except.ok upTo, s)
  | f :: rest, p, _upTo, s =>
    match get_id_from_parent_and_name oracle p f 1 10 true false true s with
    | (GetIdOut.found v, s1) => writeFolderLoop oracle rest v (some v) s1
    | (GetIdOut.nothing, s1) =>
      let (newId, s2) := mkdir f p s1
      writeFolderLoop oracle rest newId (some newId) s2
    | (GetIdOut.raisedT c, s1) => (Except.error (GDErr.transport c), s1)
    | (GetIdOut.raisedNF, s1) => (Except.error GDErr.notFound, s1)

/-- GDStorage.uploadf: resolve-or-create every folder part, then
unconditionally issue files().create for the file (name=filename,
parents=[upload_to]) — there is no existence probe for the file itself
and no retry around the creation. -/
def uploadf (oracle : ListOracle) (folder rootFolderId key : String)
    (s : GDState) : Except GDErr Unit × GDState :=
  let parts := pathParts folder key
  let filename := parts.getLastD ""
  match writeFolderLoop oracle parts.dropLast rootFolderId none s with
  | (Except.error e, s1) => (Except.error e, s1)
  | (Except.ok upTo, s1) =>
    (Except.ok (),
     { s1 with created := s1.created ++ [⟨s1.nextId, filename, pyStr upTo, false⟩],
               nextId := s1.nextId + 1 })

/-- GDStorage.upload: GD only requires the filename, delegates to uploadf. -/
def upload (oracle : ListOracle) (folder rootFolderId key : String)
    (s : GDState) : Except GDErr Unit × GDState :=
  uploadf oracle folder rootFolderId key s

/- Helper lemmas about the resolver: behavior of the retry loop on an
always-empty listing, on a nonempty listing, and monotonicity of the
list-call counter. -/

lemma getIdLoop_empty (oracle : ListOracle) (qs ck : String) (ss : Nat) (uc : Bool)
    (hempty : ∀ k, oracle k qs = Except.ok []) :
    ∀ (r : Nat) (s : GDState),
      getIdLoop oracle qs ck ss uc r s
        = (Except.ok none,
           { s with listCalls := s.listCalls + r,
                    sleeps := s.sleeps ++ List.replicate (r - 1) ss }) := by
  intro r
  induction r with
  | zero => intro s; simp [getIdLoop]
  | succ k ih =>
    intro s
    unfold getIdLoop
    rw [hempty s.listCalls]
    cases k with
    | zero => simp
    | succ j =>
      simp only [Nat.succ_ne_zero, if_false, ih]
      simp [List.append_assoc, List.replicate_succ]
      omega

lemma getIdLoop_nonempty (oracle : ListOracle) (qs ck : String) (ss : Nat)
    (uc : Bool) (k : Nat) (s : GDState) (items : List GDEntry) (h : items ≠ [])
    (hq : oracle s.listCalls qs = Except.ok items) :
    getIdLoop oracle qs ck ss uc (k + 1) s
      = (Except.ok (some (items.getLast h).id),
         if uc then
           { s with listCalls := s.listCalls + 1,
                    cache := (ck, (items.getLast h).id) :: s.cache }
         else { s with listCalls := s.listCalls + 1 }) := by
  unfold getIdLoop
  rw [hq]
  cases items with
  | nil => exact absurd rfl h
  | cons e es => rfl

lemma getIdLoop_listCalls_le (oracle : ListOracle) (qs ck : String) (ss : Nat)
    (uc : Bool) :
    ∀ (r : Nat) (s : GDState),
      s.listCalls ≤ (getIdLoop oracle qs ck ss uc r s).2.listCalls := by
  intro r
  induction r with
  | zero => intro s; simp [getIdLoop]
  | succ k ih =>
    intro s
    unfold getIdLoop
    cases hq : oracle s.listCalls qs with
    | error c => simp
    | ok items =>
      cases items with
      | nil =>
        cases k with
        | zero => simp
        | succ j =>
          simp only [Nat.succ_ne_zero, if_false]
          refine le_trans (Nat.le_succ _) ?_
          simpa using ih { s with listCalls := s.listCalls + 1, sleeps := s.sleeps ++ [ss] }
      | cons e es =>
        cases uc <;> simp

lemma get_id_listCalls_le (oracle : ListOracle) (p n : String)
    (r ss : Nat) (mt rm uc : Bool) (s : GDState) :
    s.listCalls ≤ (get_id_from_parent_and_name oracle p n r ss mt rm uc s).2.listCalls := by
  unfold get_id_from_parent_and_name
  cases hl : (if uc then lookupCache s.cache (cacheKey p n mt) else none) with
  | some v => simp [hl]
  | none =>
    simp only [hl]
    have hle := getIdLoop_listCalls_le oracle (queryString p n mt) (cacheKey p n mt) ss uc r s
    rcases hgl : getIdLoop oracle (queryString p n mt) (cacheKey p n mt) ss uc r s with ⟨res, s1⟩
    rw [hgl] at hle
    cases res with
    | error c => simpa using hle
    | ok o =>
      cases o with
      | none => cases rm <;> simpa using hle
      | some v => simpa using hle

/-- With use_cache=True and a cache miss, a single-attempt resolution
(retries=1, as every caller in the repository uses) always issues at least
one remote list call. -/
lemma get_id_miss_lt (oracle : ListOracle) (p n : String) (ss : Nat)
    (mt rm : Bool) (s : GDState)
    (h : lookupCache s.cache (cacheKey p n mt) = none) :
    s.listCalls < (get_id_from_parent_and_name oracle p n 1 ss mt rm true s).2.listCalls := by
  unfold get_id_from_parent_and_name
  simp only [if_true, h]
  unfold getIdLoop
  cases hq : oracle s.listCalls (queryString p n mt) with
  | error c => simp
  | ok items =>
    cases items with
    | nil => cases rm <;> simp
    | cons e es => simp

lemma get_id_cache_hit (oracle : ListOracle) (p n : String) (r ss : Nat)
    (mt rm : Bool) (s : GDState) (v : String)
    (h : lookupCache s.cache (cacheKey p n mt) = some v) :
    get_id_from_parent_and_name oracle p n r ss mt rm true s = (GetIdOut.found v, s) := by
  unfold get_id_from_parent_and_name
  simp [h]

lemma get_id_miss_nonempty (oracle : ListOracle) (p n : String) (k ss : Nat)
    (mt rm : Bool) (s : GDState) (items : List GDEntry) (hne : items ≠ [])
    (h : lookupCache s.cache (cacheKey p n mt) = none)
    (hq : oracle s.listCalls (queryString p n mt) = Except.ok items) :
    get_id_from_parent_and_name oracle p n (k + 1) ss mt rm true s
      = (GetIdOut.found (items.getLast hne).id,
         { s with listCalls := s.listCalls + 1,
                  cache := (cacheKey p n mt, (items.getLast hne).id) :: s.cache }) := by
  unfold get_id_from_parent_and_name
  simp only [if_true, h]
  rw [getIdLoop_nonempty oracle _ _ ss true k s items hne hq]
  simp

lemma get_id_miss_empty (oracle : ListOracle) (p n : String) (r ss : Nat)
    (mt rm : Bool) (s : GDState)
    (h : lookupCache s.cache (cacheKey p n mt) = none)
    (hempty : ∀ k, oracle k (queryString p n mt) = Except.ok []) :
    get_id_from_parent_and_name oracle p n r ss mt rm true s
      = ((if rm then GetIdOut.raisedNF else GetIdOut.nothing),
         { s with listCalls := s.listCalls + r,
                  sleeps := s.sleeps ++ List.replicate (r - 1) ss }) := by
  unfold get_id_from_parent_and_name
  simp only [if_true, h]
  rw [getIdLoop_empty oracle _ _ ss true hempty r s]
  cases rm <;> simp

lemma writeFolderLoop_listCalls_le (oracle : ListOracle) :
    ∀ (segs : List String) (p : String) (fid : Option String) (s : GDState),
      s.listCalls ≤ (writeFolderLoop oracle segs p fid s).2.listCalls := by
  intro segs
  induction segs with
  | nil => intro p fid s; simp [writeFolderLoop]
  | cons f rest ih =>
    intro p fid s
    unfold writeFolderLoop
    have h1 := get_id_listCalls_le oracle p f 1 10 true false true s
    rcases hg : get_id_from_parent_and_name oracle p f 1 10 true false true s with ⟨res, s1⟩
    rw [hg] at h1
    cases res with
    | found v => exact le_trans h1 (ih v (some v) s1)
    | nothing =>
      simp only [mkdir]
      refine le_trans h1 (le_trans ?_ (ih _ _ _))
      simp
    | raisedNF => simpa using h1
    | raisedT c => simpa using h1

/-- If a write-path folder resolution returns with exactly the state it
started from, then every segment was served from the cache, so from any
other state with the same cache it returns the same upload_to and leaves
that state untouched as well. -/
lemma writeFolderLoop_cache_only (oracle : ListOracle) :
    ∀ (segs : List String) (p : String) (fid : Option String) (s : GDState)
      (u : Option String),
      writeFolderLoop oracle segs p fid s = (Except.ok u, s) →
      ∀ t : GDState, t.cache = s.cache →
        writeFolderLoop oracle segs p fid t = (Except.ok u, t) := by
  intro segs
  induction segs with
  | nil =>
    intro p fid s u h t ht
    simp only [writeFolderLoop, Prod.mk.injEq] at h ⊢
    exact ⟨h.1, trivial⟩
  | cons f rest ih =>
    intro p fid s u h t ht
    unfold writeFolderLoop at h ⊢
    cases hl : lookupCache s.cache (cacheKey p f true) with
    | some v =>
      rw [get_id_cache_hit oracle p f 1 10 true false s v hl] at h
      rw [get_id_cache_hit oracle p f 1 10 true false t v (by rw [ht]; exact hl)]
      simp only [] at h ⊢
      exact ih v (some v) s u h t ht
    | none =>
      exfalso
      have hlt := get_id_miss_lt oracle p f 10 true false s hl
      rcases hg : get_id_from_parent_and_name oracle p f 1 10 true false true s with ⟨res, s1⟩
      rw [hg] at hlt h
      simp only at hlt
      cases res with
      | found v =>
        simp only [] at h
        have h2 := writeFolderLoop_listCalls_le oracle rest v (some v) s1
        rw [h] at h2
        simp only at h2
        omega
      | nothing =>
        simp only [] at h
        simp only [mkdir] at h
        have h2 := writeFolderLoop_listCalls_le oracle rest (gdIdOf s1.nextId)
          (some (gdIdOf s1.nextId))
          { s1 with created := s1.created ++ [⟨s1.nextId, f, p, true⟩],
                    nextId := s1.nextId + 1 }
        rw [h] at h2
        simp only at h2
        omega
      | raisedNF => simp at h
      | raisedT c => simp at h

lemma get_id_miss_empty_one (oracle : ListOracle) (p n : String) (ss : Nat)
    (mt rm : Bool) (s : GDState)
    (h : lookupCache s.cache (cacheKey p n mt) = none)
    (hq : oracle s.listCalls (queryString p n mt) = Except.ok []) :
    get_id_from_parent_and_name oracle p n 1 ss mt rm true s
      = ((if rm then GetIdOut.raisedNF else GetIdOut.nothing),
         { s with listCalls := s.listCalls + 1 }) := by
  unfold get_id_from_parent_and_name
  simp only [if_true, h]
  unfold getIdLoop
  rw [hq]
  cases rm <;> simp

/-- C2: for every parent id and name whose remote listing returns zero
matches on every attempt (and that is freshly missing, i.e. not cached),
a read-path resolution with raise_on_missing=True — the mode used by
exists and get_cdn_url — issues the remote list query exactly `r` times
(the configured attempt count), sleeps the configured interval between
consecutive attempts but not after the last (`r - 1` sleeps of `ss`), and
then raises the not-found ValueError; the final state pins the query and
sleep counts exactly, so it never issues more or fewer attempts. -/
theorem C2_read_retry_exact (oracle : ListOracle) (p n : String)
    (r ss : Nat) (mt : Bool) (s : GDState)
    (hcache : lookupCache s.cache (cacheKey p n mt) = none)
    (hempty : ∀ k, oracle k (queryString p n mt) = Except.ok []) :
    get_id_from_parent_and_name oracle p n r ss mt true true s
      = (GetIdOut.raisedNF,
         { s with listCalls := s.listCalls + r,
                  sleeps := s.sleeps ++ List.replicate (r - 1) ss }) := by
  rw [get_id_miss_empty oracle p n r ss mt true s hcache hempty]
  simp

/-- C2 witness: three configured attempts on an always-empty listing issue
exactly three list calls and two sleeps, then raise. -/
theorem C2_witness :
    get_id_from_parent_and_name (fun _ _ => Except.ok []) "root" "folder1"
        3 10 true true true GDState.init
      = (GetIdOut.raisedNF,
         { GDState.init with
             listCalls := GDState.init.listCalls + 3,
             sleeps := GDState.init.sleeps ++ List.replicate (3 - 1) 10 }) :=
  C2_read_retry_exact (fun _ _ => Except.ok []) "root" "folder1" 3 10 true
    GDState.init rfl (fun _ => rfl)

/-- C4: with the cache enabled, a first resolution of (parentId, name,
mimeFilter) that succeeds from a remote listing caches the resolved id;
resolving the same triple again on the same instance is served from the
cache: it issues no further remote list call, leaves the state untouched
and returns the same id, so exactly one remote list query is issued
across the two resolutions (the list-call counter ends at its initial
value plus one). -/
theorem C4_second_resolution_from_cache (oracle : ListOracle) (p n : String)
    (ss : Nat) (mt : Bool) (s : GDState) (items : List GDEntry) (hne : items ≠ [])
    (hcache : lookupCache s.cache (cacheKey p n mt) = none)
    (hq : oracle s.listCalls (queryString p n mt) = Except.ok items) :
    ∃ s1 : GDState,
      get_id_from_parent_and_name oracle p n 1 ss mt true true s
        = (GetIdOut.found (items.getLast hne).id, s1) ∧
      get_id_from_parent_and_name oracle p n 1 ss mt true true s1
        = (GetIdOut.found (items.getLast hne).id, s1) ∧
      s1.listCalls = s.listCalls + 1 := by
  refine ⟨_, get_id_miss_nonempty oracle p n 0 ss mt true s items hne hcache hq,
    ?_, rfl⟩
  exact get_id_cache_hit oracle p n 1 ss mt true _ _ (by simp [lookupCache])

/-- C4 witness: a listing with two duplicate entries resolved twice —
the second resolution is a cache hit on the same id. -/
theorem C4_witness :
    ∃ s1 : GDState,
      get_id_from_parent_and_name (fun _ _ => Except.ok [⟨"idA", "n"⟩, ⟨"idB", "n"⟩])
          "root" "n" 1 10 true true true GDState.init
        = (GetIdOut.found (([⟨"idA", "n"⟩, ⟨"idB", "n"⟩] : List GDEntry).getLast
            (by simp)).id, s1) ∧
      get_id_from_parent_and_name (fun _ _ => Except.ok [⟨"idA", "n"⟩, ⟨"idB", "n"⟩])
          "root" "n" 1 10 true true true s1
        = (GetIdOut.found (([⟨"idA", "n"⟩, ⟨"idB", "n"⟩] : List GDEntry).getLast
            (by simp)).id, s1) ∧
      s1.listCalls = GDState.init.listCalls + 1 :=
  C4_second_resolution_from_cache (fun _ _ => Except.ok [⟨"idA", "n"⟩, ⟨"idB", "n"⟩])
    "root" "n" 10 true GDState.init [⟨"idA", "n"⟩, ⟨"idB", "n"⟩] (by simp) rfl rfl

/-- C5: whenever the remote listing for a (parent, name) query returns one
or more entries, resolution returns the id of the LAST entry of the
returned list (items[-1]); for a fixed listing order the choice is
deterministic across repeated resolutions: every resolution starting from
a state with no cached binding returns that same last id, and resolving
again immediately after a first resolution (a cache hit) returns it too.
This includes the case of multiple duplicate folders sharing the same
name under the same parent. -/
theorem C5_last_entry_wins (oracle : ListOracle) (p n : String)
    (ss : Nat) (mt : Bool) (items : List GDEntry) (hne : items ≠ [])
    (hlist : ∀ k, oracle k (queryString p n mt) = Except.ok items) :
    (∀ s : GDState, lookupCache s.cache (cacheKey p n mt) = none →
      (get_id_from_parent_and_name oracle p n 1 ss mt true true s).1
        = GetIdOut.found (items.getLast hne).id) ∧
    (∀ s : GDState, lookupCache s.cache (cacheKey p n mt) = none →
      (get_id_from_parent_and_name oracle p n 1 ss mt true true
          (get_id_from_parent_and_name oracle p n 1 ss mt true true s).2).1
        = GetIdOut.found (items.getLast hne).id) := by
  constructor
  · intro s hs
    rw [get_id_miss_nonempty oracle p n 0 ss mt true s items hne hs (hlist _)]
  · intro s hs
    rw [get_id_miss_nonempty oracle p n 0 ss mt true s items hne hs (hlist _)]
    rw [get_id_cache_hit oracle p n 1 ss mt true
      { s with listCalls := s.listCalls + 1,
               cache := (cacheKey p n mt, (items.getLast hne).id) :: s.cache }
      ((items.getLast hne).id) (by simp [lookupCache])]

/-- C5 witness: two duplicate folders named n under the same parent —
resolution picks idB, the last entry, both on a fresh state and on the
state right after a first resolution. -/
theorem C5_witness :
    ((get_id_from_parent_and_name (fun _ _ => Except.ok [⟨"idA", "n"⟩, ⟨"idB", "n"⟩])
        "root" "n" 1 10 true true true GDState.init).1
      = GetIdOut.found (([⟨"idA", "n"⟩, ⟨"idB", "n"⟩] : List GDEntry).getLast
          (by simp)).id) ∧
    ((get_id_from_parent_and_name (fun _ _ => Except.ok [⟨"idA", "n"⟩, ⟨"idB", "n"⟩])
        "root" "n" 1 10 true true true
        (get_id_from_parent_and_name (fun _ _ => Except.ok [⟨"idA", "n"⟩, ⟨"idB", "n"⟩])
          "root" "n" 1 10 true true true GDState.init).2).1
      = GetIdOut.found (([⟨"idA", "n"⟩, ⟨"idB", "n"⟩] : List GDEntry).getLast
          (by simp)).id) := by
  have h := C5_last_entry_wins (fun _ _ => Except.ok [⟨"idA", "n"⟩, ⟨"idB", "n"⟩])
    "root" "n" 10 true [⟨"idA", "n"⟩, ⟨"idB", "n"⟩] (by simp) (fun _ => rfl)
  exact ⟨h.1 GDState.init rfl, h.2 GDState.init rfl⟩

/-- C6: when a key cannot be resolved (nothing cached and the remote
listing returns zero matches for every query), get_cdn_url raises the
not-found error — its result is an exception, not a returned null — and
whenever get_cdn_url raises, exists run on the same key and state
converts the exception into the return value false instead of
propagating it. -/
theorem C6_cdn_raises_and_exists_converts (oracle : ListOracle)
    (folder root key : String) (s : GDState)
    (hcache : s.cache = [])
    (hempty : ∀ k q, oracle k q = Except.ok []) :
    (get_cdn_url oracle folder root key s).1 = Except.error GDErr.notFound ∧
    (∀ e s1, get_cdn_url oracle folder root key s = (Except.error e, s1) →
      gdExists oracle folder root key s = (false, s1)) := by
  constructor
  · unfold get_cdn_url
    cases hp : (pathParts folder key).dropLast with
    | nil =>
      simp only [hp]
      unfold readFolderLoop
      simp only []
      rw [get_id_miss_empty_one oracle (pyStr none)
        ((pathParts folder key).getLastD "") 10 false true s
        (by rw [hcache]; rfl) (hempty _ _)]
      simp
    | cons f rest =>
      simp only [hp]
      unfold readFolderLoop
      rw [get_id_miss_empty_one oracle root f 10 true true s
        (by rw [hcache]; rfl) (hempty _ _)]
      simp
  · intro e s1 h
    unfold gdExists
    rw [h]

/-- C6 witness: a concrete unresolvable key — get_cdn_url raises the
not-found error and exists returns false on the same input. -/
theorem C6_witness :
    (get_cdn_url (fun _ _ => Except.ok []) "default" "root" "vid.mp4"
        GDState.init).1 = Except.error GDErr.notFound ∧
    gdExists (fun _ _ => Except.ok []) "default" "root" "vid.mp4" GDState.init
      = (false, ⟨[], 1, [], [], 0⟩) := by
  have h := C6_cdn_raises_and_exists_converts (fun _ _ => Except.ok [])
    "default" "root" "vid.mp4" GDState.init rfl (fun _ _ => rfl)
  exact ⟨h.1, h.2 GDErr.notFound ⟨[], 1, [], [], 0⟩ (by decide)⟩

/-- C9: exists returns false whenever the underlying get_cdn_url
resolution raises ANY exception — the not-found ValueError as well as a
transport/auth/remote-service failure (any GDErr.transport code) — so at
the exists interface a transport failure is indistinguishable from an
absent key, and exists never propagates the exception. -/
theorem C9_exists_swallows_every_exception (oracle : ListOracle)
    (folder root key : String) (s : GDState) (e : GDErr) (s1 : GDState)
    (h : get_cdn_url oracle folder root key s = (Except.error e, s1)) :
    gdExists oracle folder root key s = (false, s1) := by
  unfold gdExists
  rw [h]

/-- C9 witness: a remote service that fails with a transport error (code
503) — exists returns false rather than raising. -/
theorem C9_witness :
    gdExists (fun _ _ => Except.error 503) "default" "root" "vid.mp4" GDState.init
      = (false, ⟨[], 1, [], [], 0⟩) :=
  C9_exists_swallows_every_exception (fun _ _ => Except.error 503)
    "default" "root" "vid.mp4" GDState.init (GDErr.transport 503)
    ⟨[], 1, [], [], 0⟩ (by decide)

/-- C3 (amended): on the upload (write) path, a path segment whose remote
listing returns zero matches leads to exactly one files().create folder
creation with that name under the current parent id, the parent becomes
the created folder id, and no retry of the listing query is performed
(exactly one list call, no sleep). Contrary to the original claim, the
created folder id is NOT inserted into the cache: the final state carries
the cache unchanged. -/
theorem C3_create_folder_not_cached (oracle : ListOracle)
    (p f : String) (fid0 : Option String) (s : GDState)
    (hcache : lookupCache s.cache (cacheKey p f true) = none)
    (hq : oracle s.listCalls (queryString p f true) = Except.ok []) :
    writeFolderLoop oracle [f] p fid0 s
      = (Except.ok (some (gdIdOf s.nextId)),
         { s with listCalls := s.listCalls + 1,
                  created := s.created ++ [⟨s.nextId, f, p, true⟩],
                  nextId := s.nextId + 1 }) := by
  unfold writeFolderLoop
  rw [get_id_miss_empty_one oracle p f 10 true false s hcache hq]
  simp only []
  unfold writeFolderLoop
  simp [mkdir]

/-- C3 counterexample: a concrete write-path resolution of one missing
segment. The claim as stated says the created folder id is cached under
the (parentId, name, mimeFilter) key; at this input a folder is created
(uid 0, name folder1, parent root) yet the cache stays empty, so the
lookup of that key still misses. -/
theorem C3_counterexample_id_not_cached :
    (writeFolderLoop (fun _ _ => Except.ok []) ["folder1"] "root" none
        GDState.init).2.created
      = [⟨0, "folder1", "root", true⟩] ∧
    lookupCache ((writeFolderLoop (fun _ _ => Except.ok []) ["folder1"] "root" none
        GDState.init).2.cache) (cacheKey "root" "folder1" true)
      = none := by decide

/-- C3 witness: the amended statement at the same concrete input. -/
theorem C3_witness :
    writeFolderLoop (fun _ _ => Except.ok []) ["folder1"] "root" none GDState.init
      = (Except.ok (some (gdIdOf GDState.init.nextId)),
         { GDState.init with
             listCalls := GDState.init.listCalls + 1,
             created := GDState.init.created ++ [⟨GDState.init.nextId, "folder1", "root", true⟩],
             nextId := GDState.init.nextId + 1 }) :=
  C3_create_folder_not_cached (fun _ _ => Except.ok []) "root" "folder1" none
    GDState.init rfl rfl

/-- C10: uploadf never probes for the key itself and never overwrites.
Whenever the folder resolution is served entirely from the cache (it
returns upload_to and leaves the state untouched), each upload call
unconditionally issues one remote files().create for the file, so
uploading the same key twice raises no error and leaves two distinct
remote files — fresh uids nextId and nextId + 1 — with the same filename
under the same resolved parent; the second call touches neither the
list-call counter nor the cache (both runs issue zero list queries and
no existence check for the file). -/
theorem C10_double_upload_duplicates (oracle : ListOracle)
    (folder root key : String) (s : GDState) (upTo : Option String)
    (hres : writeFolderLoop oracle (pathParts folder key).dropLast root none s
      = (Except.ok upTo, s)) :
    uploadf oracle folder root key s
      = (Except.ok (),
         { s with
             created := s.created ++
               [⟨s.nextId, (pathParts folder key).getLastD "", pyStr upTo, false⟩],
             nextId := s.nextId + 1 }) ∧
    uploadf oracle folder root key (uploadf oracle folder root key s).2
      = (Except.ok (),
         { s with
             created := s.created ++
               [⟨s.nextId, (pathParts folder key).getLastD "", pyStr upTo, false⟩,
                ⟨s.nextId + 1, (pathParts folder key).getLastD "", pyStr upTo, false⟩],
             nextId := s.nextId + 2 }) ∧
    (⟨s.nextId, (pathParts folder key).getLastD "", pyStr upTo, false⟩ : GDCreated)
      ≠ ⟨s.nextId + 1, (pathParts folder key).getLastD "", pyStr upTo, false⟩ := by
  have h1 : uploadf oracle folder root key s
      = (Except.ok (),
         { s with
             created := s.created ++
               [⟨s.nextId, (pathParts folder key).getLastD "", pyStr upTo, false⟩],
             nextId := s.nextId + 1 }) := by
    simp only [uploadf]
    rw [hres]
  refine ⟨h1, ?_, ?_⟩
  · rw [h1]
    simp only [uploadf]
    have hres2 := writeFolderLoop_cache_only oracle
      (pathParts folder key).dropLast root none s upTo hres
      { s with
          created := s.created ++
            [⟨s.nextId, (pathParts folder key).getLastD "", pyStr upTo, false⟩],
          nextId := s.nextId + 1 } rfl
    rw [hres2]
    simp [List.append_assoc]
  · intro hc
    have h2 := congrArg GDCreated.uid hc
    simp at h2

/-- C10 witness: with the folder segment pre-resolved in the cache, two
uploads of the same key create two files with the same name and parent
and distinct uids 0 and 1. -/
theorem C10_witness :
    uploadf (fun _ _ => Except.ok []) "default" "root" "vid.mp4"
        (uploadf (fun _ _ => Except.ok []) "default" "root" "vid.mp4"
          ⟨[("root_default_True", "fid1")], 0, [], [], 0⟩).2
      = (Except.ok (),
         { (⟨[("root_default_True", "fid1")], 0, [], [], 0⟩ : GDState) with
             created := ([] : List GDCreated) ++
               [⟨0, (pathParts "default" "vid.mp4").getLastD "", pyStr (some "fid1"), false⟩,
                ⟨0 + 1, (pathParts "default" "vid.mp4").getLastD "", pyStr (some "fid1"), false⟩],
             nextId := 0 + 2 }) :=
  (C10_double_upload_duplicates (fun _ _ => Except.ok []) "default" "root" "vid.mp4"
    ⟨[("root_default_True", "fid1")], 0, [], [], 0⟩ (some "fid1") (by decide)).2.1

/- Archiver embeddings. base_archiver.py is not among the provided source
files, so ArchiveResult is modelled from the spec and the base helpers
(get_key, get_hash, get_screenshot, get_thumbnails) are treated as
external collaborators whose outcomes the environment supplies. -/

/-- Modelled from the spec: ArchiveResult is defined in base_archiver.py,
which is not among the provided source files; spec section 3 fixes its
fields (status plus optional cdnUrl, thumbnail, thumbnailIndex, duration,
title, timestamp, contentHash, screenshot), matching the keyword
arguments used at every construction site of the two archivers. Fields
not passed at a construction site default to none. -/
structure ArchiveResult where
  status : String
  cdn_url : Option String := none
  thumbnail : Option String := none
  thumbnail_index : Option String := none
  duration : Option Nat := none
  title : Option String := none
  timestamp : Option String := none
  hash : Option String := none
  screenshot : Option String := none
deriving DecidableEq, Repr

/-- What a download call delivers to its caller: the Python False (not
applicable), a returned ArchiveResult, or an exception that escaped
download and propagates to the caller. -/
inductive DlOutcome
  | notApplicable
  | ok (r : ArchiveResult)
  | raised (msg : String)
deriving DecidableEq, Repr

/-- Whether the outcome is an exception escaping download. -/
def DlOutcome.isRaised : DlOutcome → Bool
  | DlOutcome.raised _ => true
  | _ => false

/-- Outcome classes of os.remove: FileNotFoundError is distinguished
because TiktokArchiver catches exactly that class, while any other error
falls through to the surrounding handler (tiktok) or propagates
(youtube-dl). -/
inductive OsErr
  | fileNotFound
  | other (msg : String)
deriving DecidableEq, Repr

/-- The message an OsErr carries when it propagates. -/
def OsErr.msg : OsErr → String
  | OsErr.fileNotFound => "FileNotFoundError"
  | OsErr.other m => m

/-- Which side effects a download call performed: whether storage.exists,
storage.upload and os.remove were invoked, and whether the local scratch
file was created (the media download succeeded). -/
structure DlTrace where
  existsCalled : Bool
  uploadCalled : Bool
  scratchCreated : Bool
  removeAttempted : Bool
deriving DecidableEq, Repr

/-- tiktok_downloader exceptions as distinguished by the handlers of
TiktokArchiver.download: InvalidUrl has its own except clause, every
other exception is caught by the final bare except. -/
inductive TikExn
  | invalidUrl (msg : String)
  | other (msg : String)
deriving DecidableEq, Repr

/-- The info object returned by tiktok_downloader.info_post, restricted
to the attributes the archiver reads: id directly; duration (read once
directly at the get_thumbnails call and once through getattr with
default 0) and caption (getattr with default) are optional; createIso
stands for info.create.isoformat(), present only when
hasattr(info, "create") holds. -/
structure TikInfo where
  id : String
  duration : Option Nat
  caption : Option String
  createIso : Option String
deriving DecidableEq, Repr

/-- Outcomes of the collaborator calls TiktokArchiver.download makes, in
source order. Media entries carry nothing the archiver reads, only their
count matters, so they are Unit. Each Except.error is the exception that
call raises; the key and filename strings influence no modelled
observable, so they are not threaded. -/
structure TikEnv where
  infoPost : Except TikExn TikInfo
  storExists : Except String Bool
  getMedia : Except String (List Unit)
  mediaDownload : Except String Unit
  storUpload : Except String Unit
  getThumbnails : Except String (String × String)
  getHash : Except String String
  getScreenshot : Except String String
  removeFile : Except OsErr Unit
  getCdnUrl : Except String String
deriving DecidableEq, Repr

/-- The bare-except handler of TiktokArchiver.download: any uncaught
exception becomes a terminal result whose status embeds the traceback
text (modelled by the exception message). -/
def tikOther (m : String) (t : DlTrace) : DlOutcome × DlTrace :=
  (DlOutcome.ok { status := "Other Tiktok error: " ++ m }, t)

/-- TiktokArchiver.download, lines 42-60: the inner thumbnail try (which
also absorbs the AttributeError of reading info.duration when the
attribute is missing), get_hash, get_screenshot, the guarded os.remove
that catches only FileNotFoundError, storage.get_cdn_url, and the final
ArchiveResult. ec and uc record whether exists and upload were called. -/
def tiktokAfterUpload (info : TikInfo) (status : String) (ec uc : Bool)
    (env : TikEnv) : DlOutcome × DlTrace :=
  let kt_ti :=
    match info.duration with
    | none => ("", "error creating thumbnails")
    | some _ =>
      match env.getThumbnails with
      | Except.error _ => ("", "error creating thumbnails")
      | Except.ok p => p
  match env.getHash with
  | Except.error m => tikOther m ⟨ec, uc, true, false⟩
  | Except.ok hv =>
    match env.getScreenshot with
    | Except.error m => tikOther m ⟨ec, uc, true, false⟩
    | Except.ok sv =>
      match env.removeFile with
      | Except.error (OsErr.other m) => tikOther m ⟨ec, uc, true, true⟩
      | _ =>
        match env.getCdnUrl with
        | Except.error m => tikOther m ⟨ec, uc, true, true⟩
        | Except.ok cdn =>
          (DlOutcome.ok
            { status := status, cdn_url := some cdn,
              thumbnail := some kt_ti.1, thumbnail_index := some kt_ti.2,
              duration := some (info.duration.getD 0),
              title := some (info.caption.getD ""),
              timestamp := info.createIso,
              hash := some hv, screenshot := some sv },
           ⟨ec, uc, true, true⟩)

/-- TiktokArchiver.download, lines 27-41: get_media, the empty-media early
returns (including the get_cdn_url call of line 31 on the
already-archived branch), the media download, and the upload that is
skipped when the status is already archived. -/
def tiktokAfterExists (info : TikInfo) (status : String) (ec : Bool)
    (env : TikEnv) : DlOutcome × DlTrace :=
  match env.getMedia with
  | Except.error m => tikOther m ⟨ec, false, false, false⟩
  | Except.ok media =>
    if media.length ≤ 0 then
      if status = "already archived" then
        match env.getCdnUrl with
        | Except.error m => tikOther m ⟨ec, false, false, false⟩
        | Except.ok cu =>
          (DlOutcome.ok { status := "Could not download media, but already archived",
                          cdn_url := some cu },
           ⟨ec, false, false, false⟩)
      else
        (DlOutcome.ok { status := "Could not download media" },
         ⟨ec, false, false, false⟩)
    else
      match env.mediaDownload with
      | Except.error m => tikOther m ⟨ec, false, false, false⟩
      | Except.ok _ =>
        if status = "already archived" then
          tiktokAfterUpload info status ec false env
        else
          match env.storUpload with
          | Except.error m => tikOther m ⟨ec, true, true, false⟩
          | Except.ok _ => tiktokAfterUpload info status ec true env

/-- TiktokArchiver.download: the domain guard (outside the try) returns
False; inside the try, info_post, then the short-circuited
check_if_exists and storage.exists(key) probe that sets the status;
exceptions hit the InvalidUrl handler or the bare handler. -/
def tiktokDownload (url : String) (checkIfExists : Bool) (env : TikEnv) :
    DlOutcome × DlTrace :=
  if strContains url "tiktok.com" = false then
    (DlOutcome.notApplicable, ⟨false, false, false, false⟩)
  else
    match env.infoPost with
    | Except.error (TikExn.invalidUrl _) =>
      (DlOutcome.ok { status := "Invalid URL" }, ⟨false, false, false, false⟩)
    | Except.error (TikExn.other m) => tikOther m ⟨false, false, false, false⟩
    | Except.ok info =>
      match checkIfExists, env.storExists with
      | true, Except.error m => tikOther m ⟨true, false, false, false⟩
      | true, Except.ok b =>
        tiktokAfterExists info (if b then "already archived" else "success") true env
      | false, _ => tiktokAfterExists info "success" false env

/-- A single-video info dict as returned by yt_dlp extract_info,
restricted to the keys YoutubeDLArchiver.download reads. -/
structure YtItem where
  isLive : Bool
  webpageUrl : String
  title : Option String
  duration : Option Nat
  timestamp : Option Nat
  uploadDate : Option String
deriving DecidableEq, Repr

/-- An extract_info result: the top-level info dict plus the optional
entries list (the playlist / multi-video page case). -/
structure YtInfo where
  item : YtItem
  entries : Option (List YtItem)
deriving DecidableEq, Repr

/-- Outcomes of the collaborator calls YoutubeDLArchiver.download makes,
in source order. extract1 is the metadata-only extraction of line 30 (its
two except clauses both return False, so its error detail is irrelevant);
extract2 is the downloading extraction of line 70, which is OUTSIDE any
try. fileExists models os.path.exists. -/
structure YtEnv where
  extract1 : Except String YtInfo
  storExists : Except String Bool
  getCdnUrl1 : Except String String
  extract2 : Except String YtInfo
  fileExists : String → Bool
  storUpload : Except String Unit
  getCdnUrl2 : Except String String
  getHash : Except String String
  getScreenshot : Except String String
  getThumbnails : Except String (String × String)
  removeFile : Except OsErr Unit

/-- YoutubeDLArchiver.download, lines 94-116: get_hash and get_screenshot
(uncaught, so their exceptions propagate), the thumbnail try with bare
except, the UNGUARDED os.remove (any failure, including a missing file,
propagates), the timestamp selection, and the final ArchiveResult. -/
def ytdlTail3 (fmtTs : Nat → String) (fmtUd : String → String)
    (status : String) (cdnUrl : Option String) (ec uc : Bool)
    (item2 : YtItem) (env : YtEnv) : DlOutcome × DlTrace :=
  match env.getHash with
  | Except.error m => (DlOutcome.raised m, ⟨ec, uc, true, false⟩)
  | Except.ok hv =>
    match env.getScreenshot with
    | Except.error m => (DlOutcome.raised m, ⟨ec, uc, true, false⟩)
    | Except.ok sv =>
      let kt_ti :=
        match env.getThumbnails with
        | Except.error _ => ("", "Could not generate thumbnails")
        | Except.ok p => p
      match env.removeFile with
      | Except.error e => (DlOutcome.raised e.msg, ⟨ec, uc, true, true⟩)
      | Except.ok _ =>
        let ts : Option String :=
          match item2.timestamp with
          | some n => some (fmtTs n)
          | none =>
            match item2.uploadDate with
            | some d => some (fmtUd d)
            | none => none
        (DlOutcome.ok
          { status := status, cdn_url := cdnUrl,
            thumbnail := some kt_ti.1, thumbnail_index := some kt_ti.2,
            duration := item2.duration, title := item2.title,
            timestamp := ts, hash := some hv, screenshot := some sv },
         ⟨ec, uc, true, true⟩)

/-- YoutubeDLArchiver.download, lines 81-92: prepare_filename with the
.mkv fallback when the file is not on disk, then — only when the status
is not already archived — the storage upload and cdn resolution, both
uncaught, so their exceptions propagate. The recomputed key string
influences no modelled observable. -/
def ytdlTail2 (prepFile : YtItem → String) (fmtTs : Nat → String)
    (fmtUd : String → String) (status : String) (cdn0 : Option String)
    (ec : Bool) (item2 : YtItem) (env : YtEnv) : DlOutcome × DlTrace :=
  let fn0 := prepFile item2
  let _filename :=
    if env.fileExists fn0 then fn0
    else ((splitOnChar fn0 '.').headD "") ++ ".mkv"
  if status = "already archived" then
    ytdlTail3 fmtTs fmtUd status cdn0 ec false item2 env
  else
    match env.storUpload with
    | Except.error m => (DlOutcome.raised m, ⟨ec, true, true, false⟩)
    | Except.ok _ =>
      match env.getCdnUrl2 with
      | Except.error m => (DlOutcome.raised m, ⟨ec, true, true, false⟩)
      | Except.ok cu => ytdlTail3 fmtTs fmtUd status (some cu) ec true item2 env

/-- YoutubeDLArchiver.download, lines 69-84: the second, downloading
extraction (uncaught — its exception propagates to the caller), then the
entries handling: more than one entry returns False with the scratch
already downloaded; an empty entries list hits entries[0] and the
IndexError propagates; one entry replaces info. -/
def ytdlTail (prepFile : YtItem → String) (fmtTs : Nat → String)
    (fmtUd : String → String) (status : String) (cdn0 : Option String)
    (ec : Bool) (env : YtEnv) : DlOutcome × DlTrace :=
  match env.extract2 with
  | Except.error m => (DlOutcome.raised m, ⟨ec, false, false, false⟩)
  | Except.ok info2 =>
    match info2.entries with
    | some es =>
      if es.length > 1 then (DlOutcome.notApplicable, ⟨ec, false, true, false⟩)
      else
        match es with
        | [] => (DlOutcome.raised "IndexError: list index out of range",
                 ⟨ec, false, true, false⟩)
        | e :: _ => ytdlTail2 prepFile fmtTs fmtUd status cdn0 ec e env
    | none => ytdlTail2 prepFile fmtTs fmtUd status cdn0 ec info2.item env

/-- YoutubeDLArchiver.download, lines 49-67: the check_if_exists block.
Multi-entry and zero-entry listings return False; otherwise the key is
computed and storage.exists probed — that call and the get_cdn_url call
on the hit branch are uncaught, so their exceptions propagate; a hit sets
the status to already archived and pre-resolves the cdn url. -/
def ytdlCheckExists (prepFile : YtItem → String) (fmtTs : Nat → String)
    (fmtUd : String → String) (env : YtEnv) : DlOutcome × DlTrace :=
  match env.storExists with
  | Except.error m => (DlOutcome.raised m, ⟨true, false, false, false⟩)
  | Except.ok true =>
    match env.getCdnUrl1 with
    | Except.error m => (DlOutcome.raised m, ⟨true, false, false, false⟩)
    | Except.ok cu => ytdlTail prepFile fmtTs fmtUd "already archived" (some cu) true env
  | Except.ok false => ytdlTail prepFile fmtTs fmtUd "success" none true env

/-- YoutubeDLArchiver.download. netloc models self.get_netloc(url); the
Facebook cookie handling of lines 21-23 has no modelled observable. The
first extraction converts both of its exception classes into False; live
media returns a terminal Streaming media result; a twitter netloc whose
webpage_url does not start the canonical twitter prefix returns False;
then the optional existence probe and the downloading tail. -/
def ytdlDownload (netloc : String) (prepFile : YtItem → String)
    (fmtTs : Nat → String) (fmtUd : String → String)
    (checkIfExists : Bool) (env : YtEnv) : DlOutcome × DlTrace :=
  match env.extract1 with
  | Except.error _ => (DlOutcome.notApplicable, ⟨false, false, false, false⟩)
  | Except.ok info =>
    if info.item.isLive then
      (DlOutcome.ok { status := "Streaming media" }, ⟨false, false, false, false⟩)
    else if strContains netloc "twitter.com"
        && !(strContains info.item.webpageUrl "https://twitter.com/") then
      (DlOutcome.notApplicable, ⟨false, false, false, false⟩)
    else if checkIfExists then
      match info.entries with
      | some es =>
        if es.length > 1 then (DlOutcome.notApplicable, ⟨false, false, false, false⟩)
        else if es.length = 0 then (DlOutcome.notApplicable, ⟨false, false, false, false⟩)
        else ytdlCheckExists prepFile fmtTs fmtUd env
      | none => ytdlCheckExists prepFile fmtTs fmtUd env
    else ytdlTail prepFile fmtTs fmtUd "success" none false env

/- TiktokArchiver.download converts every collaborator failure into a
returned value: the following lemmas walk every branch. -/

lemma tiktokAfterUpload_not_raised (info : TikInfo) (status : String)
    (ec uc : Bool) (env : TikEnv) :
    (tiktokAfterUpload info status ec uc env).1.isRaised = false := by
  unfold tiktokAfterUpload
  cases env.getHash with
  | error m => rfl
  | ok hv =>
    cases env.getScreenshot with
    | error m => rfl
    | ok sv =>
      cases env.removeFile with
      | error e =>
        cases e with
        | fileNotFound => cases env.getCdnUrl <;> rfl
        | other m => rfl
      | ok u => cases env.getCdnUrl <;> rfl

lemma tiktokAfterExists_not_raised (info : TikInfo) (status : String)
    (ec : Bool) (env : TikEnv) :
    (tiktokAfterExists info status ec env).1.isRaised = false := by
  rcases hM : env.getMedia with m | media
  · simp [tiktokAfterExists, hM, tikOther, DlOutcome.isRaised]
  · by_cases hlen : media.length ≤ 0
    · by_cases hst : status = "already archived"
      · rcases hC : env.getCdnUrl with m | cu <;>
          simp [tiktokAfterExists, hM, hlen, hst, hC, tikOther, DlOutcome.isRaised]
      · simp [tiktokAfterExists, hM, hlen, hst, tikOther, DlOutcome.isRaised]
    · rcases hD : env.mediaDownload with m | u
      · simp [tiktokAfterExists, hM, hlen, hD, tikOther, DlOutcome.isRaised]
      · by_cases hst : status = "already archived"
        · simp [tiktokAfterExists, hM, hlen, hD, hst, tiktokAfterUpload_not_raised]
        · rcases hU : env.storUpload with m | u2
          · simp [tiktokAfterExists, hM, hlen, hD, hst, hU, tikOther,
              DlOutcome.isRaised]
          · simp [tiktokAfterExists, hM, hlen, hD, hst, hU,
              tiktokAfterUpload_not_raised]

lemma tiktokDownload_not_raised (url : String) (cie : Bool) (env : TikEnv) :
    (tiktokDownload url cie env).1.isRaised = false := by
  by_cases hu : strContains url "tiktok.com" = false
  · simp [tiktokDownload, hu, DlOutcome.isRaised]
  · rcases hI : env.infoPost with e | info
    · cases e <;> simp [tiktokDownload, hu, hI, tikOther, DlOutcome.isRaised]
    · cases cie
      · simp [tiktokDownload, hu, hI, tiktokAfterExists_not_raised]
      · rcases hE : env.storExists with m | b
        · simp [tiktokDownload, hu, hI, hE, tikOther, DlOutcome.isRaised]
        · simp [tiktokDownload, hu, hI, hE, tiktokAfterExists_not_raised]

/-- C1 counterexample: concrete collaborator outcomes (a successful
extraction, then a storage upload that fails) under which
YoutubeDLArchiver.download lets the collaborator exception escape to its
caller instead of converting it, refuting the claim that download never
raises for every archiver. -/
theorem C1_counterexample_upload_exception_escapes :
    (ytdlDownload "youtube.com" (fun _ => "f.mp4") (fun _ => "") (fun _ => "")
        false
        ⟨Except.ok ⟨⟨false, "https://youtube.com/w", some "T", some 9, some 100, none⟩, none⟩,
         Except.ok false, Except.ok "cu1",
         Except.ok ⟨⟨false, "https://youtube.com/w", some "T", some 9, some 100, none⟩, none⟩,
         (fun _ => true), Except.error "network down", Except.ok "cu2",
         Except.ok "h2", Except.ok "s2", Except.ok ("t2", "i2"), Except.ok ()⟩).1
      = DlOutcome.raised "network down" := by decide

/-- C1 (amended): TiktokArchiver.download never lets an exception escape
to its caller — for every URL and every outcome of its collaborators it
returns either the not-applicable False or an ArchiveResult carrying a
status string. YoutubeDLArchiver.download guarantees this only for its
initial metadata extraction, whose failures it converts into the
not-applicable False; exceptions raised by the later collaborators
(second extraction, storage, hashing, screenshot, cleanup) propagate. -/
theorem C1_amended_no_exception_escapes (url : String) (cie : Bool) (env : TikEnv)
    (netloc : String) (prepFile : YtItem → String)
    (fmtTs : Nat → String) (fmtUd : String → String)
    (cie2 : Bool) (env2 : YtEnv) :
    (tiktokDownload url cie env).1.isRaised = false ∧
    (∀ m, env2.extract1 = Except.error m →
      (ytdlDownload netloc prepFile fmtTs fmtUd cie2 env2).1
        = DlOutcome.notApplicable) := by
  refine ⟨tiktokDownload_not_raised url cie env, ?_⟩
  intro m hm
  unfold ytdlDownload
  rw [hm]

/-- C1 witness: the amended statement at concrete inputs — a tiktok run
whose hashing collaborator fails still returns an ArchiveResult, and a
youtube-dl run whose first extraction fails returns False. -/
theorem C1_witness :
    ((tiktokDownload "https://tiktok.com/x" true
        ⟨Except.ok ⟨"vid1", some 10, some "cap", none⟩, Except.ok false,
         Except.ok [()], Except.ok (), Except.ok (), Except.ok ("th", "ti"),
         Except.error "hash boom", Except.ok "sc1", Except.ok (),
         Except.ok "cdn1"⟩).1.isRaised = false) ∧
    ((ytdlDownload "youtube.com" (fun _ => "f.mp4") (fun _ => "") (fun _ => "")
        true
        ⟨Except.error "DownloadError", Except.ok false, Except.ok "cu1",
         Except.ok ⟨⟨false, "w", none, none, none, none⟩, none⟩, (fun _ => true),
         Except.ok (), Except.ok "cu2", Except.ok "h2", Except.ok "s2",
         Except.ok ("t2", "i2"), Except.ok ()⟩).1 = DlOutcome.notApplicable) :=
  ⟨(C1_amended_no_exception_escapes "https://tiktok.com/x" true
      ⟨Except.ok ⟨"vid1", some 10, some "cap", none⟩, Except.ok false,
       Except.ok [()], Except.ok (), Except.ok (), Except.ok ("th", "ti"),
       Except.error "hash boom", Except.ok "sc1", Except.ok (),
       Except.ok "cdn1"⟩
      "youtube.com" (fun _ => "f.mp4") (fun _ => "") (fun _ => "") true
      ⟨Except.error "DownloadError", Except.ok false, Except.ok "cu1",
       Except.ok ⟨⟨false, "w", none, none, none, none⟩, none⟩, (fun _ => true),
       Except.ok (), Except.ok "cu2", Except.ok "h2", Except.ok "s2",
       Except.ok ("t2", "i2"), Except.ok ()⟩).1,
   (C1_amended_no_exception_escapes "https://tiktok.com/x" true
      ⟨Except.ok ⟨"vid1", some 10, some "cap", none⟩, Except.ok false,
       Except.ok [()], Except.ok (), Except.ok (), Except.ok ("th", "ti"),
       Except.error "hash boom", Except.ok "sc1", Except.ok (),
       Except.ok "cdn1"⟩
      "youtube.com" (fun _ => "f.mp4") (fun _ => "") (fun _ => "") true
      ⟨Except.error "DownloadError", Except.ok false, Except.ok "cu1",
       Except.ok ⟨⟨false, "w", none, none, none, none⟩, none⟩, (fun _ => true),
       Except.ok (), Except.ok "cu2", Except.ok "h2", Except.ok "s2",
       Except.ok ("t2", "i2"), Except.ok ()⟩).2 "DownloadError" rfl⟩

/-- C7: with checkIfExists set, the key already present in storage, and
media extraction succeeding (the rest of the pipeline succeeding as the
scenario assumes), both archivers return an ArchiveResult whose status is
already archived, make no storage upload call (even an upload collaborator
that would fail is never invoked: su1, su2 and gcu2 are arbitrary), still
populate cdn_url from the already-stored object, and still delete the
local scratch file (the remove call is attempted and succeeds). -/
theorem C7_already_archived_no_upload (url vid : String) (d : Nat)
    (cap ciso : Option String) (ms : List Unit)
    (su1 : Except String Unit) (kt ti hv sv cu : String)
    (hurl : strContains url "tiktok.com" = true) (hms : ms ≠ [])
    (netloc : String) (prepFile : YtItem → String)
    (fmtTs : Nat → String) (fmtUd : String → String)
    (wu1 wu2 : String) (t1 t2 : Option String) (d1 d2 : Option Nat)
    (n1 n2 : Nat) (ud1 ud2 : Option String)
    (fe : String → Bool) (su2 : Except String Unit)
    (gcu2 : Except String String) (kt2 ti2 cu2 hv2 sv2 : String)
    (htw : strContains netloc "twitter.com" = false) :
    (tiktokDownload url true
        ⟨Except.ok ⟨vid, some d, cap, ciso⟩, Except.ok true, Except.ok ms,
         Except.ok (), su1, Except.ok (kt, ti), Except.ok hv, Except.ok sv,
         Except.ok (), Except.ok cu⟩
      = (DlOutcome.ok
          { status := "already archived", cdn_url := some cu,
            thumbnail := some kt, thumbnail_index := some ti,
            duration := some d, title := some (cap.getD ""),
            timestamp := ciso, hash := some hv, screenshot := some sv },
         ⟨true, false, true, true⟩)) ∧
    (ytdlDownload netloc prepFile fmtTs fmtUd true
        ⟨Except.ok ⟨⟨false, wu1, t1, d1, some n1, ud1⟩, none⟩, Except.ok true,
         Except.ok cu2,
         Except.ok ⟨⟨false, wu2, t2, d2, some n2, ud2⟩, none⟩, fe, su2, gcu2,
         Except.ok hv2, Except.ok sv2, Except.ok (kt2, ti2), Except.ok ()⟩
      = (DlOutcome.ok
          { status := "already archived", cdn_url := some cu2,
            thumbnail := some kt2, thumbnail_index := some ti2,
            duration := d2, title := t2,
            timestamp := some (fmtTs n2), hash := some hv2,
            screenshot := some sv2 },
         ⟨true, false, true, true⟩)) := by
  constructor
  · unfold tiktokDownload tiktokAfterExists tiktokAfterUpload
    simp [hurl, hms]
  · unfold ytdlDownload ytdlCheckExists ytdlTail ytdlTail2 ytdlTail3
    simp [htw]

/-- C7 witness: the already-archived scenario at concrete inputs; the
tiktok upload collaborator is even set to fail to exhibit that it is
never called. -/
theorem C7_witness :
    (tiktokDownload "https://tiktok.com/x" true
        ⟨Except.ok ⟨"vid1", some 10, some "cap", some "2020-01-01"⟩,
         Except.ok true, Except.ok [()], Except.ok (),
         Except.error "upload would fail", Except.ok ("th", "ti"),
         Except.ok "h1", Except.ok "sc1", Except.ok (), Except.ok "cdn1"⟩
      = (DlOutcome.ok
          { status := "already archived", cdn_url := some "cdn1",
            thumbnail := some "th", thumbnail_index := some "ti",
            duration := some 10, title := some ((some "cap").getD ""),
            timestamp := some "2020-01-01", hash := some "h1",
            screenshot := some "sc1" },
         ⟨true, false, true, true⟩)) ∧
    (ytdlDownload "youtube.com" (fun _ => "f.mp4") (fun n => Nat.repr n) (fun s => s)
        true
        ⟨Except.ok ⟨⟨false, "w1", some "T1", some 8, some 50, none⟩, none⟩,
         Except.ok true, Except.ok "cu2",
         Except.ok ⟨⟨false, "w2", some "T2", some 9, some 100, none⟩, none⟩,
         (fun _ => true), Except.error "upload would fail", Except.ok "cux",
         Except.ok "h2", Except.ok "s2", Except.ok ("t2", "i2"), Except.ok ()⟩
      = (DlOutcome.ok
          { status := "already archived", cdn_url := some "cu2",
            thumbnail := some "t2", thumbnail_index := some "i2",
            duration := some 9, title := some "T2",
            timestamp := some (Nat.repr 100), hash := some "h2",
            screenshot := some "s2" },
         ⟨true, false, true, true⟩)) :=
  C7_already_archived_no_upload "https://tiktok.com/x" "vid1" 10
    (some "cap") (some "2020-01-01") [()]
    (Except.error "upload would fail") "th" "ti" "h1" "sc1" "cdn1"
    (by decide) (by decide)
    "youtube.com" (fun _ => "f.mp4") (fun n => Nat.repr n) (fun s => s)
    "w1" "w2" (some "T1") (some "T2") (some 8) (some 9) 50 100 none none
    (fun _ => true) (Except.error "upload would fail") (Except.ok "cux")
    "t2" "i2" "cu2" "h2" "s2" (by decide)

/-- C8 counterexample: a tiktok run that creates the scratch file (the
media download succeeds) and then fails in get_hash exits through the
bare exception handler: it returns a terminal ArchiveResult without ever
attempting the scratch-file deletion, so not every exit path that created
a scratch file deletes it. -/
theorem C8_counterexample_handler_skips_cleanup :
    (tiktokDownload "https://tiktok.com/x" false
        ⟨Except.ok ⟨"vid1", some 10, some "cap", none⟩, Except.ok false,
         Except.ok [()], Except.ok (), Except.ok (), Except.ok ("th", "ti"),
         Except.error "hash boom", Except.ok "sc1", Except.ok (),
         Except.ok "cdn1"⟩).1
      = DlOutcome.ok { status := "Other Tiktok error: hash boom" } ∧
    (tiktokDownload "https://tiktok.com/x" false
        ⟨Except.ok ⟨"vid1", some 10, some "cap", none⟩, Except.ok false,
         Except.ok [()], Except.ok (), Except.ok (), Except.ok ("th", "ti"),
         Except.error "hash boom", Except.ok "sc1", Except.ok (),
         Except.ok "cdn1"⟩).2.scratchCreated = true ∧
    (tiktokDownload "https://tiktok.com/x" false
        ⟨Except.ok ⟨"vid1", some 10, some "cap", none⟩, Except.ok false,
         Except.ok [()], Except.ok (), Except.ok (), Except.ok ("th", "ti"),
         Except.error "hash boom", Except.ok "sc1", Except.ok (),
         Except.ok "cdn1"⟩).2.removeAttempted = false := by decide

/-- C8 (amended): on the tiktok archiver's normal completion path — the
scratch file was created and hashing, screenshot and cdn resolution
succeed — the scratch-file deletion is always attempted before download
returns regardless of its outcome, and a file already missing at cleanup
time (FileNotFoundError) changes nothing: the run with a successful
remove and the run with a missing file return identical results. Exit
paths through the bare exception handler after the scratch file exists
(see the counterexample), the youtube-dl multi-entry early return, and
youtube-dl's unguarded os.remove (which re-raises on a missing file) do
not satisfy the original claim. -/
theorem C8_amended_main_path_cleanup (url : String) (cie b : Bool)
    (vid : String) (cap ciso : Option String) (d : Option Nat)
    (ms : List Unit) (gt : Except String (String × String))
    (rf : Except OsErr Unit) (hv sv cu : String)
    (hurl : strContains url "tiktok.com" = true) (hms : ms ≠ []) :
    ((tiktokDownload url cie
        ⟨Except.ok ⟨vid, d, cap, ciso⟩, Except.ok b, Except.ok ms, Except.ok (),
         Except.ok (), gt, Except.ok hv, Except.ok sv, rf,
         Except.ok cu⟩).2.scratchCreated = true) ∧
    ((tiktokDownload url cie
        ⟨Except.ok ⟨vid, d, cap, ciso⟩, Except.ok b, Except.ok ms, Except.ok (),
         Except.ok (), gt, Except.ok hv, Except.ok sv, rf,
         Except.ok cu⟩).2.removeAttempted = true) ∧
    (tiktokDownload url cie
        ⟨Except.ok ⟨vid, d, cap, ciso⟩, Except.ok b, Except.ok ms, Except.ok (),
         Except.ok (), gt, Except.ok hv, Except.ok sv, Except.ok (),
         Except.ok cu⟩
      = tiktokDownload url cie
        ⟨Except.ok ⟨vid, d, cap, ciso⟩, Except.ok b, Except.ok ms, Except.ok (),
         Except.ok (), gt, Except.ok hv, Except.ok sv,
         Except.error OsErr.fileNotFound, Except.ok cu⟩) := by
  refine ⟨?_, ?_, ?_⟩
  · unfold tiktokDownload tiktokAfterExists tiktokAfterUpload tikOther
    rcases rf with (_ | m) | u <;> cases cie <;> cases b <;> simp [hurl, hms]
  · unfold tiktokDownload tiktokAfterExists tiktokAfterUpload tikOther
    rcases rf with (_ | m) | u <;> cases cie <;> cases b <;> simp [hurl, hms]
  · unfold tiktokDownload tiktokAfterExists tiktokAfterUpload tikOther
    cases cie <;> cases b <;> simp [hurl, hms]

/-- C8 witness: the amended cleanup statement at concrete inputs — the
scratch file is created, the deletion is attempted, and a
FileNotFoundError at cleanup yields the identical result as a successful
deletion. -/
theorem C8_witness :
    ((tiktokDownload "https://tiktok.com/x" true
        ⟨Except.ok ⟨"vid1", some 10, some "cap", none⟩, Except.ok false,
         Except.ok [()], Except.ok (), Except.ok (), Except.ok ("th", "ti"),
         Except.ok "h1", Except.ok "sc1", Except.ok (),
         Except.ok "cdn1"⟩).2.scratchCreated = true) ∧
    ((tiktokDownload "https://tiktok.com/x" true
        ⟨Except.ok ⟨"vid1", some 10, some "cap", none⟩, Except.ok false,
         Except.ok [()], Except.ok (), Except.ok (), Except.ok ("th", "ti"),
         Except.ok "h1", Except.ok "sc1", Except.ok (),
         Except.ok "cdn1"⟩).2.removeAttempted = true) ∧
    (tiktokDownload "https://tiktok.com/x" true
        ⟨Except.ok ⟨"vid1", some 10, some "cap", none⟩, Except.ok false,
         Except.ok [()], Except.ok (), Except.ok (), Except.ok ("th", "ti"),
         Except.ok "h1", Except.ok "sc1", Except.ok (),
         Except.ok "cdn1"⟩
      = tiktokDownload "https://tiktok.com/x" true
        ⟨Except.ok ⟨"vid1", some 10, some "cap", none⟩, Except.ok false,
         Except.ok [()], Except.ok (), Except.ok (), Except.ok ("th", "ti"),
         Except.ok "h1", Except.ok "sc1",
         Except.error OsErr.fileNotFound, Except.ok "cdn1"⟩) :=
  C8_amended_main_path_cleanup "https://tiktok.com/x" true false "vid1"
    (some "cap") none (some 10) [()] (Except.ok ("th", "ti")) (Except.ok ())
    "h1" "sc1" "cdn1" (by decide) (by decide)
